import Mathlib

/-!
Shallow embedding of `src/main.py` (OFAC Crypto Wallet Screener).

The Python module keeps four module-level variables (`sanctioned_data`,
`last_updated`, `is_loading`, `load_error`); we embed them as the record
`CacheState` and each Python function as a pure state transformer.  The
network fetch and the XML parse are the only effectful inputs of
`download_and_parse_ofac`; they are embedded as the `RefreshInput` oracle:
either the download raises `requests.RequestException`, or
`ET.fromstring` raises `ET.ParseError`, or both succeed and yield a parsed
document (`SdnDoc`, the element tree after namespace stripping).  Python
string operations on the ASCII data the program handles are embedded as
character-list functions (`pyStrip` for `str.strip`, `pyLower` for
`str.lower`, `pyIn` for the substring operator `in`), and the Python
`dict` as an association list with unique keys, insertion order preserved
and in-place overwrite (`dictInsert`), exactly the observable behaviour of
`new_data[addr] = {...}`.
-/

namespace OfacScreener

/-- Embedding of Python `str.lower()` (ASCII case folding, per character). -/
def pyLower (s : String) : String := ⟨s.data.map Char.toLower⟩

/-- Embedding of Python `str.strip()`: drop leading and trailing whitespace. -/
def pyStrip (s : String) : String :=
  ⟨((s.data.dropWhile Char.isWhitespace).reverse.dropWhile Char.isWhitespace).reverse⟩

/-- Character-list helper: does the second list start with the first? -/
def leadsWith : List Char → List Char → Bool
  | [], _ => true
  | _ :: _, [] => false
  | a :: as, b :: bs => a == b && leadsWith as bs

/-- Character-list helper: does the needle occur contiguously in the haystack? -/
def containsSubList (needle : List Char) : List Char → Bool
  | [] => needle.isEmpty
  | c :: rest => leadsWith needle (c :: rest) || containsSubList needle rest

/-- Embedding of Python `needle in haystack` on strings (case-sensitive substring). -/
def pyIn (needle hay : String) : Bool := containsSubList needle.data hay.data

/-- Address normalisation used at both insertion (line 129, `id_number.strip().lower()`)
and lookup (lines 199/209, `address.strip()` then `.lower()`). -/
def normalizeAddr (a : String) : String := pyLower (pyStrip a)

/-- One value of the `sanctioned_data` dict: `{"entity": ..., "currency_type": ...}`. -/
structure MatchRecord where
  entity : String
  currency_type : String
deriving Repr, DecidableEq

/-- The `sanctioned_data` Python dict, as an association list with unique keys
in insertion order. -/
abbrev Snapshot := List (String × MatchRecord)

/-- Embedding of Python `dict.get`: value of the first (only) entry with the key. -/
def dictGet : Snapshot → String → Option MatchRecord
  | [], _ => none
  | p :: m, k => if p.1 = k then some p.2 else dictGet m k

/-- Embedding of Python `d[k] = v`: overwrite in place if the key is present
(keys are unique), else append at the end. -/
def dictInsert : Snapshot → String → MatchRecord → Snapshot
  | [], k, v => [(k, v)]
  | p :: m, k, v => if p.1 = k then (k, v) :: m else p :: dictInsert m k v

/-- An `<id>` sub-element of `<idList>`: `idType?`/`idNumber?` are `none` when the
child element is absent (line 120 skips the id), and `some t` when it is present
with text `t` (`elem.text or ""` in the code maps a present element with no text
to `some ""`). -/
structure SdnId where
  idType? : Option String
  idNumber? : Option String
deriving Repr, DecidableEq

/-- An `<sdnEntry>` element.  `firstName?`/`lastName?` is `none` when the child
element is absent or its text is `None` (both make `fn is not None and fn.text`
false, the same as `some ""`); `idList?` is `none` when `<idList>` is absent. -/
structure SdnEntry where
  firstName? : Option String
  lastName? : Option String
  idList? : Option (List SdnId)
deriving Repr, DecidableEq

/-- The parsed SDN document after namespace stripping: its `<sdnEntry>` elements
in document order. -/
structure SdnDoc where
  entries : List SdnEntry
deriving Repr, DecidableEq

/-- Lines 101-109: build the entity name from the `firstName`/`lastName` children.
A present, non-empty text contributes its stripped text; the parts are joined with
`" "`; an empty join falls back to `"Unknown Entity"` (Python `or` on a falsy string). -/
def entityName (e : SdnEntry) : String :=
  let parts :=
    (match e.firstName? with
     | some t => if t ≠ "" then [pyStrip t] else []
     | none => []) ++
    (match e.lastName? with
     | some t => if t ≠ "" then [pyStrip t] else []
     | none => [])
  let joined := String.intercalate " " parts
  if joined = "" then "Unknown Entity" else joined

/-- An extracted (raw address, entity name, stripped idType) triple. -/
abbrev Triple := String × String × String

/-- Lines 116-133 for a single `<id>` element: skip if `idType` or `idNumber` is
absent; qualify when `"Digital Currency Address" in id_type` and
`id_number.strip()` is non-empty; the produced triple carries the raw
`id_number`, the entity name and `id_type.strip()`. -/
def extractId (name : String) (i : SdnId) : Option Triple :=
  match i.idType?, i.idNumber? with
  | some t, some n =>
      if pyIn "Digital Currency Address" t && !(pyStrip n == "") then
        some (n, name, pyStrip t)
      else none
  | _, _ => none

/-- Lines 100-133 for a single `<sdnEntry>`: nothing without an `<idList>`, else
one triple per qualifying `<id>`. -/
def entryTriples (e : SdnEntry) : List Triple :=
  match e.idList? with
  | none => []
  | some ids => ids.filterMap (extractId (entityName e))

/-- Lines 100-133: all qualifying triples of the document, in document order. -/
def parseEntries (doc : SdnDoc) : List Triple :=
  (doc.entries.map entryTriples).flatten

/-- Lines 129-133, one insertion: `new_data[id_number.strip().lower()] =
{"entity": entity_name, "currency_type": id_type}` (the triple already carries
the stripped idType). -/
def snapshotStep (m : Snapshot) (t : Triple) : Snapshot :=
  dictInsert m (normalizeAddr t.1) ⟨t.2.1, t.2.2⟩

/-- Lines 98-133: the dict built by inserting every triple in encounter order. -/
def buildSnapshot (ts : List Triple) : Snapshot :=
  ts.foldl snapshotStep []

/-- The four module-level variables (lines 45-48). -/
structure CacheState where
  sanctioned_data : Snapshot
  last_updated : Option String
  is_loading : Bool
  load_error : Option String
deriving Repr, DecidableEq

/-- Module initialisation (lines 45-48): empty dict, no timestamp, not loading,
no error. -/
def initialState : CacheState :=
  { sanctioned_data := [], last_updated := none, is_loading := false, load_error := none }

/-- Outcome of the effectful part of one refresh attempt: the download raises
`requests.RequestException` (connection failure, timeout, or `raise_for_status`
on a non-2xx status), or `ET.fromstring` raises `ET.ParseError`, or both
succeed, yielding the parsed document and the `datetime.now` timestamp string. -/
inductive RefreshInput where
  | netFail (msg : String)
  | parseFail (msg : String)
  | success (doc : SdnDoc) (now : String)
deriving Repr, DecidableEq

/-- Does the refresh input represent a fully successful fetch-and-parse? -/
def RefreshInput.isSuccess : RefreshInput → Bool
  | .success _ _ => true
  | _ => false

/-- Lines 71-149, `download_and_parse_ofac`, as a state transformer given the
fetch/parse outcome.  If `is_loading` is already true the call returns at once
with nothing changed.  Otherwise `is_loading` is set, `load_error` cleared, and:
on success the new dict and timestamp are published and `is_loading` drops in
`finally`; on either exception the handler records a prefixed message in
`load_error` (the dict and timestamp keep their prior values) and `is_loading`
drops in `finally`.  Totality of this function embeds the fact that every
exception of the body is caught (lines 139-147). -/
def download_and_parse_ofac (s : CacheState) (inp : RefreshInput) : CacheState :=
  if s.is_loading then s
  else
    match inp with
    | .netFail m =>
        { s with load_error := some ("Download failed: " ++ m), is_loading := false }
    | .parseFail m =>
        { s with load_error := some ("XML parse error: " ++ m), is_loading := false }
    | .success doc now =>
        { sanctioned_data := buildSnapshot (parseEntries doc),
          last_updated := some now,
          is_loading := false,
          load_error := none }

/-- The two `HTTPException`s `check_wallet` can raise: 400 for a missing
address, 503 while the list is empty. -/
inductive CheckError where
  | badRequest (detail : String)
  | notReady (detail : String)
deriving Repr, DecidableEq

/-- HTTP status code of each `HTTPException` raised by `check_wallet`. -/
def statusCode : CheckError → Nat
  | .badRequest _ => 400
  | .notReady _ => 503

/-- The JSON body returned by a successful `/check` call (lines 212-219). -/
structure CheckResult where
  address : String
  is_sanctioned : Bool
  «match» : Option MatchRecord
  list_last_updated : Option String
  total_addresses_in_list : Nat
deriving Repr, DecidableEq

/-- Lines 190-219, `check_wallet` (after the API-key check, which is outside
the modelled core): strip the address, 400 if empty, 503 if the dict is empty
(message depending on `is_loading`), else look up the lowercased address and
return the result record. -/
def check_wallet (s : CacheState) (address : String) : Except CheckError CheckResult :=
  let address := pyStrip address
  if address = "" then
    .error (.badRequest "The 'address' query parameter is required.")
  else if s.sanctioned_data = [] then
    .error (.notReady
      (if s.is_loading then
        "Sanctions list is still loading — please wait ~1 minute and try again."
      else
        "Sanctions list has not loaded yet. Please try again shortly."))
  else
    let clean := pyLower address
    let hit := dictGet s.sanctioned_data clean
    .ok { address := address,
          is_sanctioned := hit.isSome,
          «match» := hit,
          list_last_updated := s.last_updated,
          total_addresses_in_list := s.sanctioned_data.length }

/-- The lookup outcome of `check` in the vocabulary of the spec (§4.6):
`{ is_sanctioned, match }`, the fields of the response that constitute the
lookup result proper (the response additionally echoes the request address
and reports list metadata). -/
structure LookupResult where
  is_sanctioned : Bool
  «match» : Option MatchRecord
deriving Repr, DecidableEq

/-- Project a `check_wallet` outcome to the spec-level `LookupResult`. -/
def toLookupResult : Except CheckError CheckResult → Except CheckError LookupResult
  | .error e => .error e
  | .ok r => .ok { is_sanctioned := r.is_sanctioned, «match» := r.«match» }

/-- The two concurrent callers of `download_and_parse_ofac` in the single-flight
scenario (background loop thread and a manual-refresh background task). -/
inductive Caller where
  | A
  | B
deriving Repr, DecidableEq

/-- Interleaving state of the begin-refresh gate (lines 78-82) run by two
concurrent callers: the shared `is_loading` flag, and for each caller its
program counter (0: about to evaluate `if is_loading` on line 78; 1: past the
test, about to execute `is_loading = True` on line 82; 2: finished) and its
outcome (`some false`: returned early, declined; `some true`: proceeded into
the download, granted). -/
structure GateState where
  is_loading : Bool
  pcA : Nat
  resA : Option Bool
  pcB : Nat
  resB : Option Bool
deriving Repr, DecidableEq

/-- Both callers at line 78, flag clear, no outcomes yet. -/
def gateInit : GateState :=
  { is_loading := false, pcA := 0, resA := none, pcB := 0, resB := none }

/-- One interpreter step of the named caller.  The read-and-branch of line 78
is one step and the write of line 82 is another, separate step: CPython's GIL
makes each bytecode atomic but allows a thread switch between them, and the
two lines are distinct statements with no lock held. -/
def gateStep (s : GateState) (c : Caller) : GateState :=
  match c with
  | .A =>
      if s.pcA = 0 then
        if s.is_loading then { s with pcA := 2, resA := some false }
        else { s with pcA := 1 }
      else if s.pcA = 1 then { s with is_loading := true, pcA := 2, resA := some true }
      else s
  | .B =>
      if s.pcB = 0 then
        if s.is_loading then { s with pcB := 2, resB := some false }
        else { s with pcB := 1 }
      else if s.pcB = 1 then { s with is_loading := true, pcB := 2, resB := some true }
      else s

/-- Run the gate under a given thread schedule. -/
def gateRun (sched : List Caller) : GateState :=
  sched.foldl gateStep gateInit

/-- A sample published cache state with one sanctioned address, used to
instantiate theorems with hypotheses at concrete inputs. -/
def sampleState : CacheState :=
  { sanctioned_data := [("abc", { entity := "Org", currency_type := "Digital Currency Address - XBT" })],
    last_updated := some "2026-01-01T00:00:00+00:00",
    is_loading := false,
    load_error := none }

/-- A sample parsed document whose only identifier is a passport, so that no
triple qualifies for extraction. -/
def passportDoc : SdnDoc :=
  ⟨[{ firstName? := some "F", lastName? := some "L",
      idList? := some [{ idType? := some "Passport", idNumber? := some "P12345" }] }]⟩

/-! Helper lemmas about the embedded string and dictionary operations. -/

theorem append_ne_empty_left (a b : String) (ha : a ≠ "") : a ++ b ≠ "" := by
  intro h
  apply ha
  have hd := congrArg String.data h
  rw [String.data_append] at hd
  rcases List.append_eq_nil.mp hd with ⟨h1, _⟩
  exact String.ext h1

theorem intercalate_space_pair (a b : String) :
    String.intercalate " " [a, b] = a ++ " " ++ b := rfl

theorem space_join_ne_empty (a b : String) : a ++ " " ++ b ≠ "" := by
  intro h
  have hd := congrArg String.data h
  rw [String.data_append, String.data_append] at hd
  rcases List.append_eq_nil.mp hd with ⟨h1, _⟩
  rcases List.append_eq_nil.mp h1 with ⟨_, h2⟩
  exact absurd (String.ext h2 : (" " : String) = "") (by decide)

theorem dictGet_dictInsert_self (m : Snapshot) (k : String) (v : MatchRecord) :
    dictGet (dictInsert m k v) k = some v := by
  induction m with
  | nil => simp [dictInsert, dictGet]
  | cons p m ih =>
      by_cases h : p.1 = k
      · simp [dictInsert, dictGet, h]
      · simp [dictInsert, dictGet, h, ih]

theorem dictGet_dictInsert_ne (m : Snapshot) (k j : String) (v : MatchRecord) (h : j ≠ k) :
    dictGet (dictInsert m k v) j = dictGet m j := by
  induction m with
  | nil => simp [dictInsert, dictGet, Ne.symm h]
  | cons p m ih =>
      by_cases hp : p.1 = k
      · subst hp
        simp [dictInsert, dictGet, Ne.symm h]
      · by_cases hj : p.1 = j
        · simp [dictInsert, dictGet, hp, hj, h]
        · simp [dictInsert, dictGet, hp, hj, h, ih]

theorem dictGet_foldl_of_ne (ts : List Triple) (m : Snapshot) (k : String)
    (h : ∀ t ∈ ts, normalizeAddr t.1 ≠ k) :
    dictGet (ts.foldl snapshotStep m) k = dictGet m k := by
  induction ts generalizing m with
  | nil => rfl
  | cons t ts ih =>
      rw [List.foldl_cons, ih _ (fun u hu => h u (List.mem_cons_of_mem _ hu))]
      exact dictGet_dictInsert_ne _ _ _ _ (Ne.symm (h t (List.mem_cons_self _ _)))

theorem buildSnapshot_append (ts us : List Triple) :
    buildSnapshot (ts ++ us) = us.foldl snapshotStep (buildSnapshot ts) := by
  simp [buildSnapshot, List.foldl_append]

/-- C1: the begin-refresh gate of `download_and_parse_ofac` (lines 78-82) is
claimed to grant exactly one of two concurrent attempts.  Under the serialized
schedule `[A, A, B, B]` (caller A's check and set run back to back) the claim
holds: A is granted, B declined.  But under the interleaved schedule
`[A, B, A, B]` (both callers pass the `if is_loading` check before either
executes `is_loading = True`) both callers are granted: the check and the set
are two separate statements with no lock, so the check-and-set is not atomic
and the single-flight property fails. -/
theorem gate_single_flight_race :
    (gateRun [.A, .A, .B, .B]).resA = some true ∧
    (gateRun [.A, .A, .B, .B]).resB = some false ∧
    (gateRun [.A, .B, .A, .B]).resA = some true ∧
    (gateRun [.A, .B, .A, .B]).resB = some true := by decide

/-- C3: building the snapshot keys each triple by the trimmed, lowercased
address, and the later of two triples with the same normalized address
overwrites the earlier (last wins): the triple whose normalized address does
not recur later in the list is the one found by lookup, whatever came before
it.  In particular the two-triple input with addresses `"1A2b"`/`"1a2B"` and
entities `"Org X"` then `"Org Y"` builds a one-entry snapshot storing
`"Org Y"`. -/
theorem snapshot_last_wins (pre post : List Triple) (a e c : String)
    (hpost : ∀ t ∈ post, normalizeAddr t.1 ≠ normalizeAddr a) :
    dictGet (buildSnapshot (pre ++ (a, e, c) :: post)) (normalizeAddr a) = some ⟨e, c⟩ ∧
    buildSnapshot [("1A2b", "Org X", "Digital Currency Address - XBT"),
                   ("1a2B", "Org Y", "Digital Currency Address - XBT")] =
      [("1a2b", { entity := "Org Y", currency_type := "Digital Currency Address - XBT" })] := by
  constructor
  · rw [buildSnapshot_append, List.foldl_cons, dictGet_foldl_of_ne post _ _ hpost]
    exact dictGet_dictInsert_self _ _ _
  · decide

/-- Witness for C3 at the spec's own example: appending the `"Org Y"` triple
after the `"Org X"` triple makes the lookup of the shared normalized address
return `"Org Y"`. -/
theorem snapshot_last_wins_witness :
    dictGet (buildSnapshot ([("1A2b", "Org X", "Digital Currency Address - XBT")] ++
        ("1a2B", "Org Y", "Digital Currency Address - XBT") :: []))
      (normalizeAddr "1a2B") =
      some { entity := "Org Y", currency_type := "Digital Currency Address - XBT" } :=
  (snapshot_last_wins [("1A2b", "Org X", "Digital Currency Address - XBT")] []
    "1a2B" "Org Y" "Digital Currency Address - XBT" (by simp)).1

/-- C7 counterexample: when both name fields hold whitespace-only (hence
truthy) text, lines 105-109 append two empty stripped parts, `" ".join`
produces the single space `" "`, which is truthy, so the entity name is `" "`
and not the claimed `"Unknown Entity"`. -/
theorem entityName_whitespace_pair :
    entityName { firstName? := some " ", lastName? := some " ", idList? := none } = " " ∧
    (" " : String) ≠ "Unknown Entity" := by decide

/-- C7 as amended: the entity name is the space-join of the stripped
present-and-non-empty name fields, defaulting to `"Unknown Entity"` exactly
when that join is empty — both fields absent or empty, or a single available
field that is whitespace-only.  When both fields are present and non-empty,
the name is `strip(first) ++ " " ++ strip(last)` even if both are
whitespace-only (giving `" "`, not `"Unknown Entity"`). -/
theorem entityName_joins_trimmed (f l : String) (ids : Option (List SdnId)) :
    entityName { firstName? := none, lastName? := none, idList? := ids } = "Unknown Entity" ∧
    entityName { firstName? := some "", lastName? := some "", idList? := ids } = "Unknown Entity" ∧
    (f ≠ "" → entityName { firstName? := some f, lastName? := none, idList? := ids } =
        (if pyStrip f = "" then "Unknown Entity" else pyStrip f)) ∧
    (l ≠ "" → entityName { firstName? := none, lastName? := some l, idList? := ids } =
        (if pyStrip l = "" then "Unknown Entity" else pyStrip l)) ∧
    (f ≠ "" → l ≠ "" →
        entityName { firstName? := some f, lastName? := some l, idList? := ids } =
          pyStrip f ++ " " ++ pyStrip l) := by
  refine ⟨rfl, rfl, ?_, ?_, ?_⟩
  · intro hf
    simp only [entityName, hf, if_true, ne_eq, not_false_iff]
    rfl
  · intro hl
    simp only [entityName, hl, if_true, ne_eq, not_false_iff]
    rfl
  · intro hf hl
    simp only [entityName, hf, hl, if_true, ne_eq, not_false_iff,
      List.cons_append, List.nil_append]
    rw [intercalate_space_pair]
    exact if_neg (space_join_ne_empty _ _)

/-- Witness for C7's amended claim: two whitespace-only name fields yield the
space-join of their (empty) strips, the single space. -/
theorem entityName_joins_trimmed_witness :
    entityName { firstName? := some " ", lastName? := some " ", idList? := none } =
      pyStrip " " ++ " " ++ pyStrip " " :=
  (entityName_joins_trimmed " " " " none).2.2.2.2 (by decide) (by decide)

/-- C9: an address that strips to the empty string makes `check_wallet` raise
the 400 "required" `HTTPException` (line 201) whatever the cache state —
before and independently of the emptiness test of `sanctioned_data`. -/
theorem check_wallet_empty_address (s : CacheState) (a : String) (ha : pyStrip a = "") :
    check_wallet s a = .error (.badRequest "The 'address' query parameter is required.") ∧
    statusCode (.badRequest "The 'address' query parameter is required.") = 400 := by
  constructor
  · simp [check_wallet, ha]
  · rfl

/-- Witness for C9: a whitespace-only address against the pristine state. -/
theorem check_wallet_empty_address_witness :
    check_wallet initialState "   " =
      .error (.badRequest "The 'address' query parameter is required.") ∧
    statusCode (.badRequest "The 'address' query parameter is required.") = 400 :=
  check_wallet_empty_address initialState "   " (by decide)

/-- C2: a refresh attempt that fails (network failure, non-2xx status — both
reaching the `requests.RequestException` handler — or XML parse failure)
leaves the published dict and `last_updated` exactly as before, records a
non-empty `load_error` message, and drops `is_loading` in the `finally`
block; no exception escapes (the embedded transformer is total). -/
theorem failed_refresh_preserves (s : CacheState) (inp : RefreshInput) (m : String)
    (hload : s.is_loading = false)
    (hfail : inp = .netFail m ∨ inp = .parseFail m) :
    (download_and_parse_ofac s inp).sanctioned_data = s.sanctioned_data ∧
    (download_and_parse_ofac s inp).last_updated = s.last_updated ∧
    (∃ e, (download_and_parse_ofac s inp).load_error = some e ∧ e ≠ "") ∧
    (download_and_parse_ofac s inp).is_loading = false := by
  rcases hfail with h | h <;> subst h
  · exact ⟨by simp [download_and_parse_ofac, hload],
      by simp [download_and_parse_ofac, hload],
      ⟨"Download failed: " ++ m, by simp [download_and_parse_ofac, hload],
        append_ne_empty_left _ _ (by decide)⟩,
      by simp [download_and_parse_ofac, hload]⟩
  · exact ⟨by simp [download_and_parse_ofac, hload],
      by simp [download_and_parse_ofac, hload],
      ⟨"XML parse error: " ++ m, by simp [download_and_parse_ofac, hload],
        append_ne_empty_left _ _ (by decide)⟩,
      by simp [download_and_parse_ofac, hload]⟩

/-- Witness for C2: a connection failure against the pristine state. -/
theorem failed_refresh_preserves_witness :
    (download_and_parse_ofac initialState (.netFail "boom")).sanctioned_data =
      initialState.sanctioned_data ∧
    (download_and_parse_ofac initialState (.netFail "boom")).last_updated =
      initialState.last_updated ∧
    (∃ e, (download_and_parse_ofac initialState (.netFail "boom")).load_error = some e ∧
      e ≠ "") ∧
    (download_and_parse_ofac initialState (.netFail "boom")).is_loading = false :=
  failed_refresh_preserves initialState (.netFail "boom") "boom" rfl (Or.inl rfl)

/-- C4: an identifier with both `idType` and `idNumber` fields present yields a
triple exactly when `idType` contains the case-sensitive substring
`"Digital Currency Address"` and `idNumber` is non-empty after stripping; a
`"Passport"` identifier is excluded despite its non-empty number, a
`"Digital Currency Address - ETH"` identifier with empty number is excluded,
and a document containing only such identifiers extracts no triples. -/
theorem extractId_qualifying (name t n : String) :
    ((extractId name { idType? := some t, idNumber? := some n }).isSome
        = (pyIn "Digital Currency Address" t && !(pyStrip n == ""))) ∧
    extractId name { idType? := some "Passport", idNumber? := some "P12345" } = none ∧
    extractId name { idType? := some "Digital Currency Address - ETH", idNumber? := some "" }
        = none ∧
    parseEntries ⟨[{ firstName? := some "F", lastName? := some "L",
                     idList? := some [{ idType? := some "Passport",
                                        idNumber? := some "P12345" },
                                      { idType? := some "Digital Currency Address - ETH",
                                        idNumber? := some "" }] }]⟩ = [] := by
  refine ⟨?_, ?_, ?_, by decide⟩
  · by_cases h : pyIn "Digital Currency Address" t && !(pyStrip n == "") <;>
      simp [extractId, h]
  · have h : (pyIn "Digital Currency Address" "Passport" &&
        !(pyStrip "P12345" == "")) = false := by decide
    simp [extractId, h]
  · have h : (pyIn "Digital Currency Address" "Digital Currency Address - ETH" &&
        !(pyStrip "" == "")) = false := by decide
    simp [extractId, h]

/-- Every run of `download_and_parse_ofac` whose input is not a full success
leaves `sanctioned_data` untouched (either the gate declines, or the failure
handlers touch only `load_error` and `is_loading`). -/
theorem foldl_no_success_sanctioned (inps : List RefreshInput) (s : CacheState)
    (hf : ∀ i ∈ inps, i.isSuccess = false) :
    (inps.foldl download_and_parse_ofac s).sanctioned_data = s.sanctioned_data := by
  induction inps generalizing s with
  | nil => rfl
  | cons i inps ih =>
      rw [List.foldl_cons, ih _ (fun u hu => hf u (List.mem_cons_of_mem _ hu))]
      cases i with
      | netFail m => by_cases h : s.is_loading <;> simp [download_and_parse_ofac, h]
      | parseFail m => by_cases h : s.is_loading <;> simp [download_and_parse_ofac, h]
      | success doc now =>
          exact absurd (hf _ (List.mem_cons_self _ _)) (by simp [RefreshInput.isSuccess])

/-- C5: after any sequence of refresh attempts none of which fully succeeded,
`check_wallet` on a non-blank address raises the 503 not-ready
`HTTPException` (lines 203-207); and this failure is distinct from the
`is_sanctioned: false` answer for an unknown address, since a normal `.ok`
response (of either polarity) is only ever produced from a non-empty
published dict. -/
theorem check_before_first_success (inps : List RefreshInput) (addr : String)
    (hf : ∀ i ∈ inps, i.isSuccess = false)
    (haddr : pyStrip addr ≠ "") :
    (∃ m, check_wallet (inps.foldl download_and_parse_ofac initialState) addr
        = .error (.notReady m)) ∧
    (∀ m, statusCode (.notReady m) = 503) ∧
    (∀ s r, check_wallet s addr = .ok r → s.sanctioned_data ≠ []) := by
  have hemp : (inps.foldl download_and_parse_ofac initialState).sanctioned_data = [] :=
    foldl_no_success_sanctioned inps initialState hf
  refine ⟨⟨if (inps.foldl download_and_parse_ofac initialState).is_loading then
      "Sanctions list is still loading — please wait ~1 minute and try again."
    else
      "Sanctions list has not loaded yet. Please try again shortly.", ?_⟩,
    fun _ => rfl, ?_⟩
  · simp [check_wallet, haddr, hemp]
  · intro s r hok hdata
    simp [check_wallet, haddr, hdata] at hok

/-- Witness for C5: one failed download, then a check of `"abc"`. -/
theorem check_before_first_success_witness :
    (∃ m, check_wallet ([RefreshInput.netFail "x"].foldl download_and_parse_ofac initialState)
        "abc" = .error (.notReady m)) ∧
    (∀ m, statusCode (.notReady m) = 503) ∧
    (∀ s r, check_wallet s "abc" = .ok r → s.sanctioned_data ≠ []) :=
  check_before_first_success [RefreshInput.netFail "x"] "abc"
    (by intro i hi; rw [List.mem_singleton] at hi; subst hi; rfl)
    (by decide)

/-- C6: `check_wallet` normalizes its input exactly as the snapshot was keyed
(strip, then lowercase), so two non-blank addresses with the same normalized
form produce the same spec-level lookup result (`is_sanctioned` and `match`;
the full HTTP body additionally echoes the stripped request address). -/
theorem check_wallet_normalizes (s : CacheState) (a b : String)
    (ha : pyStrip a ≠ "") (hb : pyStrip b ≠ "")
    (hab : normalizeAddr a = normalizeAddr b) :
    toLookupResult (check_wallet s a) = toLookupResult (check_wallet s b) := by
  have hkey : pyLower (pyStrip a) = pyLower (pyStrip b) := hab
  by_cases hemp : s.sanctioned_data = []
  · simp [check_wallet, ha, hb, hemp]
  · simp [check_wallet, ha, hb, hemp, toLookupResult, hkey]

/-- Witness for C6: `" AbC "` and `"abc"` against the sample one-entry state. -/
theorem check_wallet_normalizes_witness :
    toLookupResult (check_wallet sampleState " AbC ") =
      toLookupResult (check_wallet sampleState "abc") :=
  check_wallet_normalizes sampleState " AbC " "abc" (by decide) (by decide) (by decide)

/-- C8: with a non-empty published dict and a non-blank address, a missing
lookup yields `is_sanctioned: false` with a null match, and a present lookup
yields `is_sanctioned: true` with the stored match record (entity and
currency label), as in lines 209-219. -/
theorem check_wallet_hit_miss (s : CacheState) (a : String)
    (hs : s.sanctioned_data ≠ []) (ha : pyStrip a ≠ "") :
    (dictGet s.sanctioned_data (pyLower (pyStrip a)) = none →
      check_wallet s a = .ok { address := pyStrip a, is_sanctioned := false, «match» := none,
                               list_last_updated := s.last_updated,
                               total_addresses_in_list := s.sanctioned_data.length }) ∧
    (∀ r, dictGet s.sanctioned_data (pyLower (pyStrip a)) = some r →
      check_wallet s a = .ok { address := pyStrip a, is_sanctioned := true, «match» := some r,
                               list_last_updated := s.last_updated,
                               total_addresses_in_list := s.sanctioned_data.length }) := by
  constructor
  · intro hmiss
    simp [check_wallet, hs, ha, hmiss]
  · intro r hhit
    simp [check_wallet, hs, ha, hhit]

/-- Witness for C8: a miss on `"zzz"` and a hit on `" AbC "` against the
sample one-entry state. -/
theorem check_wallet_hit_miss_witness :
    check_wallet sampleState "zzz" =
      .ok { address := pyStrip "zzz", is_sanctioned := false, «match» := none,
            list_last_updated := sampleState.last_updated,
            total_addresses_in_list := sampleState.sanctioned_data.length } ∧
    check_wallet sampleState " AbC " =
      .ok { address := pyStrip " AbC ", is_sanctioned := true,
            «match» := some { entity := "Org",
                              currency_type := "Digital Currency Address - XBT" },
            list_last_updated := sampleState.last_updated,
            total_addresses_in_list := sampleState.sanctioned_data.length } :=
  ⟨(check_wallet_hit_miss sampleState "zzz" (by decide) (by decide)).1 (by decide),
   (check_wallet_hit_miss sampleState " AbC " (by decide) (by decide)).2
     { entity := "Org", currency_type := "Digital Currency Address - XBT" } (by decide)⟩

/-- C10: a successful refresh whose document yields no qualifying identifiers
publishes the empty dict, and a subsequent `check_wallet` on a non-blank
address still raises the 503 not-ready `HTTPException` — with the very same
outcome as against the pristine never-loaded state, so the two are
indistinguishable at the check interface. -/
theorem empty_publish_still_not_ready (s : CacheState) (doc : SdnDoc) (now addr : String)
    (hload : s.is_loading = false) (hdoc : parseEntries doc = [])
    (haddr : pyStrip addr ≠ "") :
    (download_and_parse_ofac s (.success doc now)).sanctioned_data = [] ∧
    check_wallet (download_and_parse_ofac s (.success doc now)) addr
      = .error (.notReady "Sanctions list has not loaded yet. Please try again shortly.") ∧
    check_wallet (download_and_parse_ofac s (.success doc now)) addr
      = check_wallet initialState addr := by
  have hempty : (download_and_parse_ofac s (.success doc now)).sanctioned_data = [] := by
    simp [download_and_parse_ofac, hload, hdoc, buildSnapshot]
  have hflag : (download_and_parse_ofac s (.success doc now)).is_loading = false := by
    simp [download_and_parse_ofac, hload]
  refine ⟨hempty, ?_, ?_⟩
  · simp [check_wallet, haddr, hempty, hflag]
  · simp [check_wallet, haddr, hempty, hflag, initialState]

/-- Witness for C10: refreshing the pristine state with the passport-only
document, then checking `"abc"`. -/
theorem empty_publish_still_not_ready_witness :
    (download_and_parse_ofac initialState (.success passportDoc "2026-10-12")).sanctioned_data
      = [] ∧
    check_wallet (download_and_parse_ofac initialState (.success passportDoc "2026-10-12"))
        "abc"
      = .error (.notReady "Sanctions list has not loaded yet. Please try again shortly.") ∧
    check_wallet (download_and_parse_ofac initialState (.success passportDoc "2026-10-12"))
        "abc"
      = check_wallet initialState "abc" :=
  empty_publish_still_not_ready initialState passportDoc "2026-10-12" "abc"
    rfl (by decide) (by decide)

end OfacScreener
